import Mathlib

/-!
Verification development for the session-management core of the repository:
an Express server keeping an in-memory map of `UserSession` records
(`part_002`), a legacy client-side `SessionManager` with debounced sync and
periodic validation (`script.js`), and a React hook persisting state to
localStorage (`useSessionManager.ts`).  The JavaScript/TypeScript code is
shallowly embedded: JSON bodies become `JVal`, wall-clock timestamps become
explicit `Nat` arguments, the server's `Map` becomes a list of records keyed
by `sessionId`, and each HTTP handler becomes a pure function returning a
status code, an optional response record and the post-call store.
-/

namespace BugBash

/-- JSON-like values, the shape of request bodies and of the `uiState` /
`workspaceData` fields of a session record. -/
inductive JVal where
  | null
  | str (s : String)
  | bool (b : Bool)
  | num (n : Int)
  | arr (elems : List JVal)
  | obj (fields : List (String × JVal))
deriving Repr

/-- JavaScript truthiness of a value (`!v` in the source negates this). -/
def truthy : JVal → Bool
  | .null => false
  | .str s => s != ""
  | .bool b => b
  | .num n => n != 0
  | .arr _ => true
  | .obj _ => true

/-- `typeof v === 'object'` in JavaScript: true for `null`, arrays and
plain objects. -/
def jsTypeofObject : JVal → Bool
  | .null => true
  | .arr _ => true
  | .obj _ => true
  | _ => false

/-- `Array.isArray v`. -/
def isArrVal : JVal → Bool
  | .arr _ => true
  | _ => false

/-- `typeof v === 'boolean'`. -/
def isBoolVal : JVal → Bool
  | .bool _ => true
  | _ => false

/-- Lookup of a key in an object's field list (first occurrence). -/
def olookup (k : String) (fs : List (String × JVal)) : Option JVal :=
  (fs.find? (fun p => p.1 == k)).map (·.2)

/-- Property access `v.k`: defined on plain objects, `undefined` (`none`)
on every other value (in particular on arrays, whose own keys are numeric
indices). -/
def jget : JVal → String → Option JVal
  | .obj fs, k => olookup k fs
  | _, _ => none

/-- The own enumerable entries of a value, as used by `Object.keys` and by
object spread: an object's field list, an array's index-keyed elements,
nothing for primitives. -/
def jentries : JVal → List (String × JVal)
  | .obj fs => fs
  | .arr xs => xs.enum.map (fun p => (toString p.1, p.2))
  | _ => []

/-- Object-spread merge `{...a, ...b}`: keys of `a` in order with values
overridden by `b` where present, followed by the keys of `b` not in `a`. -/
def objMerge (a b : List (String × JVal)) : List (String × JVal) :=
  a.map (fun p => match olookup p.1 b with
    | some v => (p.1, v)
    | none => p)
  ++ b.filter (fun p => (olookup p.1 a).isNone)

/-- `{...a, ...b}` on values. -/
def jmerge (a b : JVal) : JVal := .obj (objMerge (jentries a) (jentries b))

/-- `['grid','table','pq-query'].includes(v)` (strict equality, so only
those three strings match). -/
def isTabString : JVal → Bool
  | .str s => s == "grid" || s == "table" || s == "pq-query"
  | _ => false

/-- `validateUiState` from the server: rejects non-objects; checks
`activeTab` against the enumerated tab set only when it is truthy, and
`excelToggle` for boolean type only when it is present. -/
def validateUiState (uiState : JVal) : Bool :=
  if !truthy uiState || !jsTypeofObject uiState then false
  else
    (match jget uiState "activeTab" with
     | some v => !truthy v || isTabString v
     | none => true)
    &&
    (match jget uiState "excelToggle" with
     | some v => isBoolVal v
     | none => true)

/-- The workspace keys accepted by `validateWorkspaceData`. -/
def allowedWorkspaceKeys : List String :=
  ["gridData", "tableData", "pqQueryData", "uploads"]

/-- `validateWorkspaceData` from the server: rejects non-objects; every
provided key must be allowed and every provided value must be an array. -/
def validateWorkspaceData (w : JVal) : Bool :=
  if !truthy w || !jsTypeofObject w then false
  else
    (jentries w).all (fun p => allowedWorkspaceKeys.contains p.1)
    && (jentries w).all (fun p => isArrVal p.2)

/-- The UUID v4 pattern `/^[0-9a-f]{8}-[0-9a-f]{4}-4[0-9a-f]{3}-[89ab][0-9a-f]{3}-[0-9a-f]{12}$/i`:
hex digit classes (case-insensitive). -/
def isHexChar (c : Char) : Bool :=
  ('0' ≤ c && c ≤ '9') || ('a' ≤ c && c ≤ 'f') || ('A' ≤ c && c ≤ 'F')

/-- The `[89ab]` class under the `/i` flag. -/
def isVariantChar (c : Char) : Bool :=
  c == '8' || c == '9' || c == 'a' || c == 'b' || c == 'A' || c == 'B'

/-- `validateSessionId` from the server: the anchored UUID v4 regex
(36 characters; hyphens at positions 8, 13, 18, 23; the literal `4` at
position 14; the variant class at position 19; hex digits elsewhere). -/
def validateSessionId (s : String) : Bool :=
  let cs := s.toList
  cs.length == 36 &&
  (List.range 36).all (fun i =>
    let c := cs.getD i ' '
    if i == 8 || i == 13 || i == 18 || i == 23 then c == '-'
    else if i == 14 then c == '4'
    else if i == 19 then isVariantChar c
    else isHexChar c)

/-- Default `uiState` set by the `UserSession` constructor and by
`resetSession`. -/
def defaultUiState : JVal :=
  .obj [("activeTab", .str "grid"), ("excelToggle", .bool false)]

/-- Default `workspaceData` set by the `UserSession` constructor and by
`resetSession`. -/
def defaultWorkspaceData : JVal :=
  .obj [("gridData", .arr []), ("tableData", .arr []),
        ("pqQueryData", .arr []), ("uploads", .arr [])]

/-- A server-side session record.  `createdAt` / `lastActivity` are
timestamps (`new Date()` becomes an explicit `Nat` clock value). -/
structure UserSession where
  sessionId : String
  createdAt : Nat
  lastActivity : Nat
  uiState : JVal
  workspaceData : JVal
deriving Repr

/-- The `UserSession` constructor; `uuidv4()` is modelled as the explicit
argument `id` and `new Date()` as `now`. -/
def newUserSession (now : Nat) (id : String) : UserSession :=
  { sessionId := id
    createdAt := now
    lastActivity := now
    uiState := defaultUiState
    workspaceData := defaultWorkspaceData }

/-- `updateUiState`: shallow spread merge, then `updateLastActivity`. -/
def UserSession.updateUiState (s : UserSession) (patch : JVal) (now : Nat) : UserSession :=
  { s with uiState := jmerge s.uiState patch, lastActivity := now }

/-- `updateWorkspaceData`: shallow spread merge, then `updateLastActivity`. -/
def UserSession.updateWorkspaceData (s : UserSession) (patch : JVal) (now : Nat) : UserSession :=
  { s with workspaceData := jmerge s.workspaceData patch, lastActivity := now }

/-- `resetSession`: reinitializes both state maps in place and touches
`lastActivity`; `sessionId` and `createdAt` are untouched. -/
def UserSession.resetSession (s : UserSession) (now : Nat) : UserSession :=
  { s with uiState := defaultUiState
           workspaceData := defaultWorkspaceData
           lastActivity := now }

/-- The server's `sessions` map, as a list of records keyed by their
`sessionId` field (insertion-ordered, like a JavaScript `Map`). -/
abbrev Store := List UserSession

/-- `sessions.get(sid)`. -/
def lookupSession (sid : String) (store : Store) : Option UserSession :=
  store.find? (fun r => r.sessionId == sid)

/-- `sessions.set(sess.sessionId, sess)`: replace in place when the key
exists, append otherwise. -/
def setSession (sess : UserSession) (store : Store) : Store :=
  if store.any (fun r => r.sessionId == sess.sessionId) then
    store.map (fun r => if r.sessionId == sess.sessionId then sess else r)
  else store ++ [sess]

/-- In-place mutation of the record held by the map under key `sid`
(JavaScript handlers mutate the object obtained from `sessions.get`). -/
def updateSessionIn (sid : String) (f : UserSession → UserSession) (store : Store) : Store :=
  store.map (fun r => if r.sessionId == sid then f r else r)

/-- Result of one HTTP handler invocation: status code, the session record
serialized into the response (when any), and the store after the call. -/
structure HRes where
  status : Nat
  session : Option UserSession
  store : Store
deriving Repr

/-- `POST /api/session/init`: create a record and insert it. -/
def initHandler (now : Nat) (newId : String) (store : Store) : HRes :=
  let sess := newUserSession now newId
  { status := 201, session := some sess, store := setSession sess store }

/-- `GET /api/session/:sessionId`: id-format gate, then lookup, then
`updateLastActivity` and return the record. -/
def getHandler (now : Nat) (sid : String) (store : Store) : HRes :=
  if !validateSessionId sid then
    { status := 400, session := none, store := store }
  else
    match lookupSession sid store with
    | none => { status := 404, session := none, store := store }
    | some sess =>
      let touched := { sess with lastActivity := now }
      { status := 200, session := some touched
        store := updateSessionIn sid (fun r => { r with lastActivity := now }) store }

/-- The `workspaceData` phase of the PUT handler, entered after the
`uiState` phase: by this point a valid `uiState` patch has already been
applied to the store (`sess` and `store` are the post-`uiState` values). -/
def putWorkspacePhase (now : Nat) (sid : String) (workspaceData : Option JVal)
    (sess : UserSession) (store : Store) : HRes :=
  match workspaceData with
  | some w =>
    if !validateWorkspaceData w then
      { status := 400, session := none, store := store }
    else
      let sess2 := sess.updateWorkspaceData w now
      { status := 200, session := some sess2
        store := updateSessionIn sid (fun r => r.updateWorkspaceData w now) store }
  | none => { status := 200, session := some sess, store := store }

/-- `PUT /api/session/:sessionId/state`: id gate, lookup, then the
`uiState` patch is validated and applied, then the `workspaceData` patch
is validated and applied.  Note the source applies the `uiState` patch
before it looks at the `workspaceData` patch at all. -/
def putStateHandler (now : Nat) (sid : String)
    (uiState workspaceData : Option JVal) (store : Store) : HRes :=
  if !validateSessionId sid then
    { status := 400, session := none, store := store }
  else
    match lookupSession sid store with
    | none => { status := 404, session := none, store := store }
    | some sess =>
      match uiState with
      | some u =>
        if !validateUiState u then
          { status := 400, session := none, store := store }
        else
          let sess1 := sess.updateUiState u now
          let store1 := updateSessionIn sid (fun r => r.updateUiState u now) store
          putWorkspacePhase now sid workspaceData sess1 store1
      | none => putWorkspacePhase now sid workspaceData sess store

/-- `DELETE /api/session/:sessionId/reset`. -/
def resetHandler (now : Nat) (sid : String) (store : Store) : HRes :=
  if !validateSessionId sid then
    { status := 400, session := none, store := store }
  else
    match lookupSession sid store with
    | none => { status := 404, session := none, store := store }
    | some sess =>
      let sess1 := sess.resetSession now
      { status := 200, session := some sess1
        store := updateSessionIn sid (fun r => r.resetSession now) store }

/-- The generalized eviction sweep: keep exactly the records whose
inactivity `now - lastActivity` does not exceed `maxAge` (the source
deletes those with `now - session.lastActivity > maxAge`). -/
def sweepExpired (now maxAge : Nat) (store : Store) : Store :=
  store.filter (fun r => !(decide (maxAge < now - r.lastActivity)))

/-- `cleanupSessions` from the server: the sweep at the fixed 24-hour
`maxAge`. -/
def cleanupSessions (now : Nat) (store : Store) : Store :=
  sweepExpired now (24 * 60 * 60 * 1000) store

/-! ### File upload pipeline -/

/-- The mimetypes accepted by the multer `fileFilter`. -/
def allowedMimeTypes : List String :=
  ["text/csv", "application/vnd.ms-excel",
   "application/vnd.openxmlformats-officedocument.spreadsheetml.sheet"]

/-- A multipart request to the upload endpoint, as seen by multer:
either no `file` field, or one file with a name, a mimetype, a byte size
and (opaque) content. -/
inductive UploadReq where
  | noFile
  | file (originalName mimetype : String) (size : Nat) (content : String)
deriving Repr

/-- Outcome of the `upload.single('file')` middleware: the request passes
through with `req.file` set (or absent), or multer raises an error —
`fileFilter` rejection (a plain `Error`) or the `LIMIT_FILE_SIZE`
`MulterError`. -/
inductive MulterOutcome where
  | pass (reqFile : Option (String × String × Nat × String))
  | errFileType
  | errFileSize
deriving Repr, DecidableEq

/-- The multer middleware: the `fileFilter` sees the file's mimetype when
the part arrives; an accepted file is then subject to the 10 MB
`fileSize` limit while streaming. -/
def multerSingleFile (r : UploadReq) : MulterOutcome :=
  match r with
  | .noFile => .pass none
  | .file n m sz content =>
    if !allowedMimeTypes.contains m then .errFileType
    else if 10 * 1024 * 1024 < sz then .errFileSize
    else .pass (some (n, m, sz, content))

/-- The `uploadInfo` object pushed onto `workspaceData.uploads`
(`req.file.buffer.toString('base64')` is kept opaque as `content`). -/
def mkUploadInfo (n m : String) (sz : Nat) (content : String) (now : Nat) : JVal :=
  .obj [("originalName", .str n), ("mimetype", .str m), ("size", .num sz),
        ("uploadedAt", .num now), ("data", .str content)]

/-- `workspaceData.uploads.push(info)` on an object whose `uploads` entry
is an array. -/
def pushUpload (w : JVal) (info : JVal) : JVal :=
  match w with
  | .obj fs => .obj (fs.map (fun p =>
      if p.1 == "uploads" then
        (p.1, match p.2 with
              | .arr xs => .arr (xs ++ [info])
              | v => v)
      else p))
  | v => v

/-- The route handler of `POST /api/session/:sessionId/upload`, entered
after multer: id gate, lookup, no-file check, then push the upload info
and touch `lastActivity`.  `uploads.push` on a missing or non-array
`uploads` value throws, which the handler's `catch` turns into a 500. -/
def uploadHandler (now : Nat) (sid : String)
    (reqFile : Option (String × String × Nat × String)) (store : Store) : HRes :=
  if !validateSessionId sid then
    { status := 400, session := none, store := store }
  else
    match lookupSession sid store with
    | none => { status := 404, session := none, store := store }
    | some sess =>
      match reqFile with
      | none => { status := 400, session := none, store := store }
      | some (n, m, sz, content) =>
        match jget sess.workspaceData "uploads" with
        | some (.arr _) =>
          let info := mkUploadInfo n m sz content now
          let f := fun (r : UserSession) =>
            { r with workspaceData := pushUpload r.workspaceData info
                     lastActivity := now }
          { status := 200, session := some (f sess)
            store := updateSessionIn sid f store }
        | _ => { status := 500, session := none, store := store }

/-- The whole upload endpoint: multer first, then the route handler; a
multer error skips the handler and lands in the error-handling
middleware, which maps `LIMIT_FILE_SIZE` to 400 and every other error
(including the `fileFilter`'s plain `Error`) to the generic 500. -/
def uploadEndpoint (now : Nat) (sid : String) (req : UploadReq) (store : Store) : HRes :=
  match multerSingleFile req with
  | .pass reqFile => uploadHandler now sid reqFile store
  | .errFileSize => { status := 400, session := none, store := store }
  | .errFileType => { status := 500, session := none, store := store }

/-! ### Legacy client `SessionManager`: debounced sync (`script.js`) -/

/-- The legacy client's `SessionManager`, restricted to what the debounced
sync touches: the local `state` object, the pending `syncTimeout` deadline
(absolute fire time, `none` when no timer is pending), the session id, the
`isInitialized` flag, and the trace of states pushed by `syncToServer`. -/
structure ClientSM where
  state : List (String × JVal)
  syncTimeout : Option Nat
  sessionId : Option String
  isInit : Bool
  pushes : List (List (String × JVal))

/-- The debounce timer callback: `syncToServer`, which PUTs the *current*
`this.state` (skipped with a warning when there is no session id); the
pending timeout is consumed. -/
def smFire (sm : ClientSM) : ClientSM :=
  if sm.sessionId.isSome then
    { sm with syncTimeout := none, pushes := sm.pushes ++ [sm.state] }
  else { sm with syncTimeout := none }

/-- Deliver the pending timer if its deadline has been reached by time
`t` (the event loop runs due timer callbacks before later events). -/
def fireIfDue (sm : ClientSM) (t : Nat) : ClientSM :=
  match sm.syncTimeout with
  | some d => if d ≤ t then smFire sm else sm
  | none => sm

/-- `updateState` at time `t`: any due timer has fired first; then the
shallow spread merge into `this.state`; then, when initialized,
`debouncedSync()` — `clearTimeout` of the pending timer and `setTimeout`
of a fresh one 500 time units out. -/
def smUpdateState (sm : ClientSM) (t : Nat) (patch : List (String × JVal)) : ClientSM :=
  let sm1 := fireIfDue sm t
  let sm2 := { sm1 with state := objMerge sm1.state patch }
  if sm2.isInit then { sm2 with syncTimeout := some (t + 500) } else sm2

/-- Let the final pending timer (if any) fire. -/
def smFlush (sm : ClientSM) : ClientSM :=
  match sm.syncTimeout with
  | some _ => smFire sm
  | none => sm

/-- Run a finite timed sequence of local writes, then let time pass until
the last scheduled push has fired. -/
def runBurst (sm : ClientSM) (writes : List (Nat × List (String × JVal))) : ClientSM :=
  smFlush (writes.foldl (fun s w => smUpdateState s w.1 w.2) sm)

/-- The burst hypothesis: successive writes are strictly later but within
the 500-unit debounce window of the previous write. -/
def burstGaps : Nat → List (Nat × List (String × JVal)) → Bool
  | _, [] => true
  | t, (t', _) :: ws => (decide (t < t') && decide (t' < t + 500)) && burstGaps t' ws

/-- The time of the last write of a burst (defaulting to `t`). -/
def lastWriteTime (t : Nat) (ws : List (Nat × List (String × JVal))) : Nat :=
  ws.foldl (fun _ w => w.1) t

/-- The local state after folding a burst's patches into `s`. -/
def stateAfter (s : List (String × JVal)) (ws : List (Nat × List (String × JVal))) :
    List (String × JVal) :=
  ws.foldl (fun st w => objMerge st w.2) s

/-! ### Legacy client `SessionManager`: periodic validation poll -/

/-- Outcome of the poll's `fetch` of `GET /api/session/:id`: a response
with `success:true`, a response with `success:false` (404/not found), or
a thrown network error. -/
inductive PollResult where
  | ok
  | notFound
  | netError
deriving Repr, DecidableEq

/-- The scheduler-relevant client state for the periodic validation poll:
in-memory session id, the id remembered in `sessionStorage`, the
`isInitialized` flag, whether the `validationInterval` is running, and how
many times `init()` has been invoked to bootstrap a replacement session. -/
structure PollClient where
  sessionId : Option String
  storedId : Option String
  isInit : Bool
  intervalActive : Bool
  bootstraps : Nat
deriving Repr, DecidableEq

/-- One tick of the `startPeriodicSync` interval callback.  On a
`success:false` response: remove the remembered id from `sessionStorage`,
null the in-memory id, clear `isInitialized`, `clearInterval` the poll's
own interval, and delegate to `init()` (modelled as incrementing
`bootstraps`).  A thrown fetch error is only logged.  -/
def pollTick (c : PollClient) (r : PollResult) : PollClient :=
  if c.sessionId.isNone then c
  else
    match r with
    | .ok => c
    | .notFound =>
      { c with storedId := none, sessionId := none, isInit := false,
               intervalActive := false, bootstraps := c.bootstraps + 1 }
    | .netError => c

/-! ### React hook `useSessionManager` (Local State Store) -/

/-- `fileConfigs` in `UserSessionState`. -/
structure FileConfigs where
  tableName : String
  sheetName : String
deriving Repr

/-- `docProps` in `UserSessionState`. -/
structure DocProps where
  title : String
  subject : String
  keywords : String
  createdBy : String
  description : String
  lastModifiedBy : String
  category : String
  revision : String
deriving Repr

/-- `pqQuery` in `UserSessionState`. -/
structure PqQuery where
  queryMashup : String
  refreshOnOpen : Bool
  queryName : String
deriving Repr

/-- `gridView` in `UserSessionState`. -/
structure GridView where
  isGridView : Bool
  promoteHeaders : Bool
  adjustColumnNames : Bool
deriving Repr

/-- `gridData` in `UserSessionState`. -/
structure GridData where
  data : List (List String)
  rows : Nat
  cols : Nat
deriving Repr

/-- The hook's `UserSessionState` (the fields populated by the hook's
`defaultState`); `uploads: any[]` is a list of opaque values. -/
structure UserSessionState where
  sessionId : String
  activeTab : String
  excelToggle : Bool
  sidebarCollapsed : Bool
  fileConfigs : FileConfigs
  docProps : DocProps
  pqQuery : PqQuery
  gridView : GridView
  gridData : GridData
  uploads : List JVal
deriving Repr

/-- `Partial<UserSessionState>`: every top-level key optional; nested
objects are replaced wholesale when present (object spread is one level
deep). -/
structure StatePatch where
  sessionId : Option String := none
  activeTab : Option String := none
  excelToggle : Option Bool := none
  sidebarCollapsed : Option Bool := none
  fileConfigs : Option FileConfigs := none
  docProps : Option DocProps := none
  pqQuery : Option PqQuery := none
  gridView : Option GridView := none
  gridData : Option GridData := none
  uploads : Option (List JVal) := none
deriving Repr

/-- `{...prevState, ...updates}` at the hook's fixed state type: keys in
the patch replace the base value wholesale, absent keys are untouched. -/
def mergeState (s : UserSessionState) (p : StatePatch) : UserSessionState :=
  { sessionId := p.sessionId.getD s.sessionId
    activeTab := p.activeTab.getD s.activeTab
    excelToggle := p.excelToggle.getD s.excelToggle
    sidebarCollapsed := p.sidebarCollapsed.getD s.sidebarCollapsed
    fileConfigs := p.fileConfigs.getD s.fileConfigs
    docProps := p.docProps.getD s.docProps
    pqQuery := p.pqQuery.getD s.pqQuery
    gridView := p.gridView.getD s.gridView
    gridData := p.gridData.getD s.gridData
    uploads := p.uploads.getD s.uploads }

/-- The hook's observable state: the React state, the value held under
the localStorage key (deserialized), and the `error` string. -/
structure HookState where
  state : UserSessionState
  stored : Option UserSessionState
  err : Option String
deriving Repr

/-- The hook's `updateState`: compute the merged state, attempt
`localStorage.setItem` (atomic: on failure the stored value is untouched
and the error is surfaced via `setError`), and adopt the merged state in
memory regardless. -/
def hookUpdateState (h : HookState) (updates : StatePatch) (storageOk : Bool) : HookState :=
  let newState := mergeState h.state updates
  if storageOk then
    { h with state := newState, stored := some newState }
  else
    { h with state := newState, err := some "Failed to save" }

/-- A read of the hook's state (`state` as returned to the component). -/
def hookRead (h : HookState) : UserSessionState := h.state

/-! ### Operation sequences over the store -/

/-- One request against the Remote Session Store (the `now` of each
operation is the wall-clock instant it runs at; `uuidv4()` of a create is
the explicit `newId`). -/
inductive Op where
  | create (now : Nat) (newId : String)
  | fetch (now : Nat) (sid : String)
  | put (now : Nat) (sid : String) (uiState workspaceData : Option JVal)
  | reset (now : Nat) (sid : String)
  | upload (now : Nat) (sid : String) (req : UploadReq)
  | sweep (now : Nat) (maxAge : Nat)

/-- The instant an operation runs at. -/
def Op.time : Op → Nat
  | .create now _ => now
  | .fetch now _ => now
  | .put now _ _ _ => now
  | .reset now _ => now
  | .upload now _ _ => now
  | .sweep now _ => now

/-- The store after one operation (the handler's post-call store). -/
def applyOp (store : Store) (op : Op) : Store :=
  match op with
  | .create now id => (initHandler now id store).store
  | .fetch now sid => (getHandler now sid store).store
  | .put now sid u w => (putStateHandler now sid u w store).store
  | .reset now sid => (resetHandler now sid store).store
  | .upload now sid req => (uploadEndpoint now sid req store).store
  | .sweep now maxAge => sweepExpired now maxAge store

/-- The store after a sequence of operations. -/
def runOps (store : Store) (ops : List Op) : Store := ops.foldl applyOp store

/-- The operations run at nondecreasing wall-clock instants, starting no
earlier than `t`. -/
def timesMono : Nat → List Op → Bool
  | _, [] => true
  | t, op :: ops => decide (t ≤ op.time) && timesMono op.time ops

/-- Every create's generated id is fresh at the moment it runs (uuidv4
collisions never happen). -/
def freshCreates : Store → List Op → Bool
  | _, [] => true
  | store, op :: ops =>
    (match op with
     | .create _ id => (lookupSession id store).isNone
     | _ => true)
    && freshCreates (applyOp store op) ops

/-- Along the run, no step changes the `sessionId` or `createdAt` of a
record that exists both before and after the step. -/
def PreservesIdentity : Store → List Op → Prop
  | _, [] => True
  | store, op :: ops =>
    (∀ sid r r', lookupSession sid store = some r →
      lookupSession sid (applyOp store op) = some r' →
      r'.sessionId = r.sessionId ∧ r'.createdAt = r.createdAt)
    ∧ PreservesIdentity (applyOp store op) ops

/-- The store invariant at wall-clock instant `t`: session ids are
pairwise distinct, and each record satisfies
`createdAt ≤ lastActivity ≤ t`. -/
def StoreInv (t : Nat) (store : Store) : Prop :=
  ((store.map (·.sessionId)).Nodup) ∧
  ∀ r ∈ store, r.createdAt ≤ r.lastActivity ∧ r.lastActivity ≤ t

/-- The wall-clock instant after running a sequence of operations
(defaulting to `t` when the sequence is empty). -/
def endTime (t : Nat) (ops : List Op) : Nat :=
  ops.foldl (fun _ op => op.time) t

/-- A record transform that a handler applies in place to the looked-up
record: it keeps `sessionId` and `createdAt` and sets `lastActivity` to
the current instant. -/
def Touches (now : Nat) (f : UserSession → UserSession) : Prop :=
  ∀ r, (f r).sessionId = r.sessionId ∧ (f r).createdAt = r.createdAt ∧
    (f r).lastActivity = now

/-! ### Concrete fixtures used by witnesses and counterexamples -/

/-- A well-formed UUID v4 string. -/
def uuidA : String := "12345678-1234-4123-8123-123456789abc"

/-- A second, distinct well-formed UUID v4 string. -/
def uuidB : String := "aaaaaaaa-bbbb-4ccc-9ddd-eeeeeeffffff"

/-- A one-record store holding a fresh default session under `uuidA`. -/
def storeA : Store := [newUserSession 0 uuidA]

/-- A poll client with an active session and a running interval. -/
def pollC0 : PollClient :=
  { sessionId := some uuidA, storedId := some uuidA, isInit := true,
    intervalActive := true, bootstraps := 0 }

/-- The hook's `defaultState` (its random local session id is the
explicit `sessionId` field value). -/
def hookDefaultState : UserSessionState :=
  { sessionId := "local_0_abc"
    activeTab := "grid"
    excelToggle := false
    sidebarCollapsed := false
    fileConfigs := { tableName := "Table1", sheetName := "Sheet1" }
    docProps := { title := "", subject := "", keywords := "", createdBy := "",
                  description := "", lastModifiedBy := "", category := "",
                  revision := "" }
    pqQuery := { queryMashup := "", refreshOnOpen := false, queryName := "Query1" }
    gridView := { isGridView := false, promoteHeaders := false,
                  adjustColumnNames := false }
    gridData := { data := [["", "", ""], ["", "", ""], ["", "", ""]],
                  rows := 3, cols := 3 }
    uploads := [] }

/-- A concrete operation trace exercising every kind of request. -/
def opsW : List Op :=
  [.create 0 uuidA,
   .put 1 uuidA (some (.obj [("activeTab", .str "table")])) none,
   .fetch 2 uuidA,
   .reset 3 uuidA,
   .upload 4 uuidA (.file "a.csv" "text/csv" 5 "zz"),
   .sweep 10 2,
   .create 11 uuidB]

/-! ### Helper lemmas -/

theorem find?_filter_of_imp {α : Type} (l : List α) (p f : α → Bool)
    (h : ∀ x ∈ l, p x = true → f x = true) :
    (l.filter f).find? p = l.find? p := by
  induction l with
  | nil => rfl
  | cons a l ih =>
    have ih' := ih (fun x hx => h x (List.mem_cons_of_mem a hx))
    by_cases hp : p a = true
    · have hf := h a (List.mem_cons_self a l) hp
      simp [List.filter_cons, hf, List.find?_cons, hp]
    · by_cases hf : f a = true
      · simp [List.filter_cons, hf, List.find?_cons, hp, ih']
      · simp [List.filter_cons, hf, List.find?_cons, hp, ih']

theorem olookup_objMerge (k : String) (a b : List (String × JVal)) :
    olookup k (objMerge a b) = (olookup k b).or (olookup k a) := by
  rw [objMerge, olookup, List.find?_append, List.find?_map]
  have hpred : ((fun p : String × JVal => p.1 == k) ∘ (fun p : String × JVal =>
      match olookup p.1 b with
      | some v => (p.1, v)
      | none => p)) = fun p : String × JVal => p.1 == k := by
    funext p
    cases h : olookup p.1 b <;> simp [Function.comp, h]
  rw [hpred]
  cases ha : a.find? (fun p => p.1 == k) with
  | none =>
    have hnone : olookup k a = none := by simp [olookup, ha]
    rw [find?_filter_of_imp b _ _ (fun p _ hpk => by
      have hk : p.1 = k := by simpa using hpk
      rw [hk, hnone]
      rfl)]
    rw [hnone]
    simp [olookup]
  | some p =>
    have hk : p.1 = k := by
      have := List.find?_some ha
      simpa using this
    have ha' : olookup k a = some p.2 := by simp [olookup, ha]
    cases hb : olookup k b with
    | none => simp [hk, hb, ha']
    | some v => simp [hk, hb, ha']

theorem lookupSession_updateSessionIn (sid' sid : String) (f : UserSession → UserSession)
    (store : Store) (hf : ∀ r, (f r).sessionId = r.sessionId) :
    lookupSession sid' (updateSessionIn sid f store) =
      (lookupSession sid' store).map (fun r => if r.sessionId == sid then f r else r) := by
  unfold lookupSession updateSessionIn
  rw [List.find?_map]
  have hpred : ((fun r : UserSession => r.sessionId == sid') ∘ (fun r : UserSession =>
      if r.sessionId == sid then f r else r)) = fun r : UserSession => r.sessionId == sid' := by
    funext r
    by_cases h : r.sessionId == sid <;> simp [Function.comp, h, hf]
  rw [hpred]

theorem sessionId_of_lookup {sid : String} {store : Store} {r : UserSession}
    (h : lookupSession sid store = some r) : r.sessionId = sid := by
  have := List.find?_some h
  simpa using this

theorem mem_of_lookup {sid : String} {store : Store} {r : UserSession}
    (h : lookupSession sid store = some r) : r ∈ store :=
  List.mem_of_find?_eq_some h

/-! ### C10 -/

/-- C10: for an existing session, a `uiState` patch setting `activeTab` to
any falsy value (such as the empty string) passes `validateUiState`, the
PUT returns 200, and the stored record's `activeTab` becomes that value:
the enumerated-set restriction applies only to truthy values. -/
theorem c10_falsy_activeTab (now : Nat) (store : Store) (sid : String)
    (sess : UserSession) (v : JVal)
    (hsid : validateSessionId sid = true)
    (hfind : lookupSession sid store = some sess)
    (hfalsy : truthy v = false) :
    validateUiState (.obj [("activeTab", v)]) = true ∧
    (putStateHandler now sid (some (.obj [("activeTab", v)])) none store).status = 200 ∧
    lookupSession sid ((putStateHandler now sid (some (.obj [("activeTab", v)])) none store).store) =
      some (sess.updateUiState (.obj [("activeTab", v)]) now) ∧
    jget ((sess.updateUiState (.obj [("activeTab", v)]) now).uiState) "activeTab" = some v := by
  have hvalid : validateUiState (.obj [("activeTab", v)]) = true := by
    cases v with
    | null => rfl
    | str s =>
      have hs : s = "" := by simpa [truthy] using hfalsy
      subst hs; rfl
    | bool b =>
      have hb : b = false := by simpa [truthy] using hfalsy
      subst hb; rfl
    | num n =>
      have hn : n = 0 := by simpa [truthy] using hfalsy
      subst hn; rfl
    | arr xs => simp [truthy] at hfalsy
    | obj fs => simp [truthy] at hfalsy
  refine ⟨hvalid, ?_, ?_, ?_⟩
  · simp [putStateHandler, hsid, hfind, hvalid, putWorkspacePhase]
  · have hupd : ∀ r : UserSession,
        (r.updateUiState (.obj [("activeTab", v)]) now).sessionId = r.sessionId := by
      intro r; rfl
    simp only [putStateHandler, hsid, Bool.not_true, Bool.false_eq_true, if_false, hfind,
      hvalid, putWorkspacePhase]
    rw [lookupSession_updateSessionIn sid sid _ store hupd]
    rw [hfind]
    simp [sessionId_of_lookup hfind]
  · show jget (jmerge sess.uiState (.obj [("activeTab", v)])) "activeTab" = some v
    have : jget (jmerge sess.uiState (.obj [("activeTab", v)])) "activeTab" =
        olookup "activeTab" (objMerge (jentries sess.uiState) [("activeTab", v)]) := rfl
    rw [this, olookup_objMerge]
    simp [olookup]

/-- C10 witness: the empty string on the one-record fixture store. -/
theorem c10_witness :
    validateSessionId uuidA = true ∧
    lookupSession uuidA storeA = some (newUserSession 0 uuidA) ∧
    truthy (.str "") = false ∧
    ((putStateHandler 5 uuidA (some (.obj [("activeTab", .str "")])) none storeA).status = 200 ∧
     jget (((newUserSession 0 uuidA).updateUiState (.obj [("activeTab", .str "")]) 5).uiState)
       "activeTab" = some (.str "")) :=
  ⟨by decide, rfl, rfl,
   (c10_falsy_activeTab 5 storeA uuidA (newUserSession 0 uuidA) (.str "")
      (by decide) rfl rfl).2.1,
   (c10_falsy_activeTab 5 storeA uuidA (newUserSession 0 uuidA) (.str "")
      (by decide) rfl rfl).2.2.2⟩

/-! ### C6 -/

/-- C6: a malformed session id is rejected with 400 by every id-addressed
handler before any map lookup (the store is returned unchanged and no
response carries a record), and never yields 404/NotFound; the upload
endpoint never answers 404 on a malformed id even when multer itself
errors out before the handler. -/
theorem c6_malformed_id_gate (now : Nat) (sid : String) (store : Store)
    (u w : Option JVal) (req : UploadReq)
    (h : validateSessionId sid = false) :
    getHandler now sid store = { status := 400, session := none, store := store } ∧
    putStateHandler now sid u w store = { status := 400, session := none, store := store } ∧
    resetHandler now sid store = { status := 400, session := none, store := store } ∧
    (∀ reqFile, uploadHandler now sid reqFile store =
      { status := 400, session := none, store := store }) ∧
    (uploadEndpoint now sid req store).store = store ∧
    (uploadEndpoint now sid req store).status ≠ 404 := by
  refine ⟨?_, ?_, ?_, ?_, ?_, ?_⟩
  · simp [getHandler, h]
  · simp [putStateHandler, h]
  · simp [resetHandler, h]
  · intro reqFile; simp [uploadHandler, h]
  · cases hm : multerSingleFile req <;> simp [uploadEndpoint, hm, uploadHandler, h]
  · cases hm : multerSingleFile req <;> simp [uploadEndpoint, hm, uploadHandler, h]

/-- C6 witness: a concrete malformed id against the fixture store. -/
theorem c6_witness :
    validateSessionId "not-a-uuid" = false ∧
    (getHandler 0 "not-a-uuid" storeA = { status := 400, session := none, store := storeA } ∧
     (uploadEndpoint 0 "not-a-uuid" .noFile storeA).status ≠ 404) :=
  ⟨by decide,
   (c6_malformed_id_gate 0 "not-a-uuid" storeA none none .noFile (by decide)).1,
   (c6_malformed_id_gate 0 "not-a-uuid" storeA none none .noFile (by decide)).2.2.2.2.2⟩

/-! ### C1 -/

/-- C1: the claim says an invalid patch always yields 400 with the record
fully unchanged, in particular when a valid `uiState` part is combined
with an invalid `workspaceData` part.  The code violates this: on the
fixture store the combined patch is answered 400, yet the `uiState`
patch has already been applied in place — the stored record now carries
`activeTab = "table"` and a touched `lastActivity`, while the record
before the call carried the default `activeTab = "grid"`. -/
theorem c1_invalid_patch_mutates :
    validateWorkspaceData (.num 3) = false ∧
    (putStateHandler 5 uuidA (some (.obj [("activeTab", .str "table")]))
        (some (.num 3)) storeA).status = 400 ∧
    lookupSession uuidA ((putStateHandler 5 uuidA (some (.obj [("activeTab", .str "table")]))
        (some (.num 3)) storeA).store) =
      some { sessionId := uuidA, createdAt := 0, lastActivity := 5,
             uiState := .obj [("activeTab", .str "table"), ("excelToggle", .bool false)],
             workspaceData := defaultWorkspaceData } ∧
    lookupSession uuidA storeA =
      some { sessionId := uuidA, createdAt := 0, lastActivity := 0,
             uiState := .obj [("activeTab", .str "grid"), ("excelToggle", .bool false)],
             workspaceData := defaultWorkspaceData } :=
  ⟨rfl, rfl, rfl, rfl⟩

/-! ### C8 -/

/-- C8 counterexample: an upload of a 10 MiB + 1 byte CSV file to an
existing session is answered with status 400 (the error middleware maps
`LIMIT_FILE_SIZE` to 400), not 413 as the claim states. -/
theorem c8_counterexample :
    (uploadEndpoint 5 uuidA (.file "big.csv" "text/csv" (10 * 1024 * 1024 + 1) "zz")
        storeA).status = 400 ∧
    (uploadEndpoint 5 uuidA (.file "big.csv" "text/csv" (10 * 1024 * 1024 + 1) "zz")
        storeA).status ≠ 413 :=
  ⟨rfl, by decide⟩

/-- C8 amended: an upload of a file over the 10 MiB cap fails with 400
(not 413); a request with no file fails with 400; a disallowed
content-type fails with 500 (the `fileFilter` error is a plain `Error`,
not a `MulterError`, and falls through to the generic 500 handler); and a
200 response implies an allowed CSV/XLS/XLSX mimetype and a size within
the cap. -/
theorem c8_upload_statuses (now : Nat) (sid : String) (store : Store)
    (sess : UserSession) (n m content : String) (sz : Nat)
    (hsid : validateSessionId sid = true)
    (hfind : lookupSession sid store = some sess) :
    (allowedMimeTypes.contains m = true → 10 * 1024 * 1024 < sz →
      uploadEndpoint now sid (.file n m sz content) store =
        { status := 400, session := none, store := store }) ∧
    (uploadEndpoint now sid .noFile store =
        { status := 400, session := none, store := store }) ∧
    (allowedMimeTypes.contains m = false →
      uploadEndpoint now sid (.file n m sz content) store =
        { status := 500, session := none, store := store }) ∧
    ((uploadEndpoint now sid (.file n m sz content) store).status = 200 →
      allowedMimeTypes.contains m = true ∧ sz ≤ 10 * 1024 * 1024) := by
  refine ⟨?_, ?_, ?_, ?_⟩
  · intro hm hsz
    have hmem : m ∈ allowedMimeTypes := by simpa using hm
    simp [uploadEndpoint, multerSingleFile, hmem, hsz]
  · simp [uploadEndpoint, multerSingleFile, uploadHandler, hsid, hfind]
  · intro hm
    have hmem : m ∉ allowedMimeTypes := by simpa using hm
    simp [uploadEndpoint, multerSingleFile, hmem]
  · intro h200
    by_cases hmem : m ∈ allowedMimeTypes
    · by_cases hsz : 10 * 1024 * 1024 < sz
      · exfalso
        simp [uploadEndpoint, multerSingleFile, hmem, hsz] at h200
      · exact ⟨by simpa using hmem, Nat.le_of_not_lt hsz⟩
    · exfalso
      simp [uploadEndpoint, multerSingleFile, hmem] at h200

/-- C8 witness: the oversized-file branch at concrete values. -/
theorem c8_witness :
    validateSessionId uuidA = true ∧
    lookupSession uuidA storeA = some (newUserSession 0 uuidA) ∧
    allowedMimeTypes.contains "text/csv" = true ∧
    10 * 1024 * 1024 < 10 * 1024 * 1024 + 1 ∧
    uploadEndpoint 7 uuidA (.file "big.csv" "text/csv" (10 * 1024 * 1024 + 1) "zz") storeA =
      { status := 400, session := none, store := storeA } :=
  ⟨by decide, rfl, by decide, by decide,
   (c8_upload_statuses 7 uuidA storeA (newUserSession 0 uuidA) "big.csv" "text/csv" "zz"
      (10 * 1024 * 1024 + 1) (by decide) rfl).1 (by decide) (by decide)⟩

/-! ### C3 -/

/-- C3 counterexample: on a thrown network failure of the poll's fetch,
the code only logs the error — the interval stays active, the session id
is kept and no re-bootstrap is triggered, contradicting the claim that
any poll failure (NotFound *or* network failure) stops the interval,
discards the id, and re-bootstraps. -/
theorem c3_counterexample :
    ¬ ((pollTick pollC0 .netError).intervalActive = false ∧
       (pollTick pollC0 .netError).sessionId = none ∧
       (pollTick pollC0 .netError).bootstraps = pollC0.bootstraps + 1) := by
  decide

/-- C3 amended: only a NotFound (`success:false`) poll response makes the
scheduler stop its own interval, discard the remembered id (both
in-memory and in sessionStorage), and trigger exactly one re-bootstrap;
a thrown network failure is logged and changes nothing (the poll simply
runs again on the next cycle), as does a successful poll. -/
theorem c3_poll_invalidation (c : PollClient) (hs : c.sessionId.isSome = true) :
    (pollTick c .notFound).intervalActive = false ∧
    (pollTick c .notFound).sessionId = none ∧
    (pollTick c .notFound).storedId = none ∧
    (pollTick c .notFound).isInit = false ∧
    (pollTick c .notFound).bootstraps = c.bootstraps + 1 ∧
    pollTick c .netError = c ∧
    pollTick c .ok = c := by
  have hn : c.sessionId.isNone = false := by
    cases h : c.sessionId with
    | none => rw [h] at hs; simp at hs
    | some v => rfl
  simp [pollTick, hn]

/-- C3 witness: the NotFound branch on the concrete poll client. -/
theorem c3_witness :
    pollC0.sessionId.isSome = true ∧
    ((pollTick pollC0 .notFound).intervalActive = false ∧
     (pollTick pollC0 .notFound).sessionId = none ∧
     (pollTick pollC0 .notFound).bootstraps = pollC0.bootstraps + 1) :=
  ⟨rfl, (c3_poll_invalidation pollC0 rfl).1, (c3_poll_invalidation pollC0 rfl).2.1,
   (c3_poll_invalidation pollC0 rfl).2.2.2.2.1⟩

/-! ### C7 -/

/-- C7: the hook's write merges the patch into the current state one
level deep (patch keys replace the base value wholesale, absent keys are
untouched), an immediate read returns exactly the merged state whether or
not the durable write succeeded, and on a storage failure the in-memory
state still updates, the error is surfaced, and the stored value is left
as it was. -/
theorem c7_local_write (h : HookState) (updates : StatePatch) (storageOk : Bool) :
    hookRead (hookUpdateState h updates storageOk) = mergeState h.state updates ∧
    (hookRead (hookUpdateState h updates storageOk)).sessionId
      = updates.sessionId.getD h.state.sessionId ∧
    (hookRead (hookUpdateState h updates storageOk)).activeTab
      = updates.activeTab.getD h.state.activeTab ∧
    (hookRead (hookUpdateState h updates storageOk)).excelToggle
      = updates.excelToggle.getD h.state.excelToggle ∧
    (hookRead (hookUpdateState h updates storageOk)).sidebarCollapsed
      = updates.sidebarCollapsed.getD h.state.sidebarCollapsed ∧
    (hookRead (hookUpdateState h updates storageOk)).fileConfigs
      = updates.fileConfigs.getD h.state.fileConfigs ∧
    (hookRead (hookUpdateState h updates storageOk)).docProps
      = updates.docProps.getD h.state.docProps ∧
    (hookRead (hookUpdateState h updates storageOk)).pqQuery
      = updates.pqQuery.getD h.state.pqQuery ∧
    (hookRead (hookUpdateState h updates storageOk)).gridView
      = updates.gridView.getD h.state.gridView ∧
    (hookRead (hookUpdateState h updates storageOk)).gridData
      = updates.gridData.getD h.state.gridData ∧
    (hookRead (hookUpdateState h updates storageOk)).uploads
      = updates.uploads.getD h.state.uploads ∧
    (hookUpdateState h updates storageOk).stored
      = (if storageOk then some (mergeState h.state updates) else h.stored) ∧
    (hookUpdateState h updates storageOk).err
      = (if storageOk then h.err else some "Failed to save") := by
  cases storageOk <;> simp [hookUpdateState, hookRead, mergeState]

/-! ### C4 -/

/-- C4: `sweepExpired now maxAge` keeps exactly the records whose
inactivity `now - lastActivity` is at most `maxAge` (removal iff strict
excess), and an id so removed subsequently answers 404/NotFound on GET
even though the id is well-formed. -/
theorem c4_sweep_exact (store : Store) (now maxAge : Nat) :
    (∀ r, r ∈ sweepExpired now maxAge store ↔
      r ∈ store ∧ now - r.lastActivity ≤ maxAge) ∧
    (∀ sid r t2, validateSessionId sid = true →
      ((store.map (·.sessionId)).Nodup) →
      r ∈ store → r.sessionId = sid → maxAge < now - r.lastActivity →
      (getHandler t2 sid (sweepExpired now maxAge store)).status = 404) := by
  constructor
  · intro r
    simp [sweepExpired, List.mem_filter, Nat.not_lt]
  · intro sid r t2 hsid hnod hr hrsid hexp
    have hnone : lookupSession sid (sweepExpired now maxAge store) = none := by
      unfold lookupSession
      rw [List.find?_eq_none]
      intro x hx hpx
      have hx' := List.mem_filter.mp hx
      have hxid : x.sessionId = sid := by simpa using hpx
      have hxr : x = r :=
        List.inj_on_of_nodup_map hnod hx'.1 hr (by rw [hxid, hrsid])
      subst hxr
      have hkeep := hx'.2
      rw [decide_eq_true hexp] at hkeep
      simp at hkeep
    simp [getHandler, hsid, hnone]

/-- C4 witness: with `now = 100`, `maxAge = 10` the fixture record
(`lastActivity = 0`) is removed and a later GET answers 404. -/
theorem c4_witness :
    validateSessionId uuidA = true ∧
    ((storeA.map (·.sessionId)).Nodup) ∧
    (newUserSession 0 uuidA) ∈ storeA ∧
    (10 : Nat) < 100 - (newUserSession 0 uuidA).lastActivity ∧
    (((newUserSession 0 uuidA) ∈ sweepExpired 100 10 storeA ↔
        (newUserSession 0 uuidA) ∈ storeA ∧
        100 - (newUserSession 0 uuidA).lastActivity ≤ 10) ∧
     (getHandler 7 uuidA (sweepExpired 100 10 storeA)).status = 404) :=
  ⟨by decide, by simp [storeA], by simp [storeA], by decide,
   (c4_sweep_exact storeA 100 10).1 (newUserSession 0 uuidA),
   (c4_sweep_exact storeA 100 10).2 uuidA (newUserSession 0 uuidA) 7
     (by decide) (by simp [storeA]) (by simp [storeA]) rfl (by decide)⟩

/-! ### C5 -/

/-- C5: for an existing record, reset followed by get yields a record with
the same `sessionId` and `createdAt` as before the reset, the
initialization defaults for `uiState` and `workspaceData`, and a
`lastActivity` strictly greater than its pre-reset value (the explicit
clock having advanced past the record's previous activity). -/
theorem c5_reset_then_get (store : Store) (sid : String) (r : UserSession) (t1 t2 : Nat)
    (hsid : validateSessionId sid = true)
    (hfind : lookupSession sid store = some r)
    (h1 : r.lastActivity < t1) (h12 : t1 ≤ t2) :
    (resetHandler t1 sid store).status = 200 ∧
    (getHandler t2 sid (resetHandler t1 sid store).store).status = 200 ∧
    (getHandler t2 sid (resetHandler t1 sid store).store).session =
      some { sessionId := r.sessionId, createdAt := r.createdAt, lastActivity := t2,
             uiState := defaultUiState, workspaceData := defaultWorkspaceData } ∧
    r.lastActivity < t2 := by
  have hrid : r.sessionId = sid := sessionId_of_lookup hfind
  have hstore : (resetHandler t1 sid store).store =
      updateSessionIn sid (fun x => x.resetSession t1) store := by
    simp [resetHandler, hsid, hfind]
  have hlook : lookupSession sid ((resetHandler t1 sid store).store) =
      some (r.resetSession t1) := by
    rw [hstore,
      lookupSession_updateSessionIn sid sid (fun x => x.resetSession t1) store (fun x => rfl),
      hfind]
    simp [hrid]
  refine ⟨?_, ?_, ?_, ?_⟩
  · simp [resetHandler, hsid, hfind]
  · simp [getHandler, hsid, hlook]
  · simp [getHandler, hsid, hlook]
    exact ⟨rfl, rfl, rfl, rfl⟩
  · exact lt_of_lt_of_le h1 h12

/-- C5 witness: reset at time 3 and get at time 4 on the fixture store. -/
theorem c5_witness :
    validateSessionId uuidA = true ∧
    lookupSession uuidA storeA = some (newUserSession 0 uuidA) ∧
    (newUserSession 0 uuidA).lastActivity < 3 ∧ (3 : Nat) ≤ 4 ∧
    ((getHandler 4 uuidA (resetHandler 3 uuidA storeA).store).session =
      some { sessionId := (newUserSession 0 uuidA).sessionId,
             createdAt := (newUserSession 0 uuidA).createdAt, lastActivity := 4,
             uiState := defaultUiState, workspaceData := defaultWorkspaceData } ∧
     (newUserSession 0 uuidA).lastActivity < 4) :=
  ⟨by decide, rfl, by decide, by decide,
   (c5_reset_then_get storeA uuidA (newUserSession 0 uuidA) 3 4
      (by decide) rfl (by decide) (by decide)).2.2.1,
   (c5_reset_then_get storeA uuidA (newUserSession 0 uuidA) 3 4
      (by decide) rfl (by decide) (by decide)).2.2.2⟩

/-! ### C2 -/

/-- During a burst (each write strictly later than, and strictly within
500 units of, the previous one) the pending debounce timer never fires:
folding the writes leaves the push trace untouched, accumulates the
shallow merges into the local state, and reschedules the deadline to 500
past the last write — each write cancels and reschedules the timer. -/
theorem c2_burst_foldl (ws : List (Nat × List (String × JVal))) :
    ∀ (sm : ClientSM) (t : Nat),
    sm.syncTimeout = some (t + 500) → sm.isInit = true → burstGaps t ws = true →
    ws.foldl (fun s w => smUpdateState s w.1 w.2) sm =
      { state := stateAfter sm.state ws,
        syncTimeout := some (lastWriteTime t ws + 500),
        sessionId := sm.sessionId, isInit := true, pushes := sm.pushes } := by
  induction ws with
  | nil =>
    intro sm t hto hinit _
    cases sm
    simp_all [stateAfter, lastWriteTime]
  | cons w ws ih =>
    intro sm t hto hinit hb
    obtain ⟨t', p⟩ := w
    simp only [burstGaps, Bool.and_eq_true, decide_eq_true_iff] at hb
    obtain ⟨⟨h1, h2⟩, h3⟩ := hb
    have hstep : smUpdateState sm t' p =
        { state := objMerge sm.state p, syncTimeout := some (t' + 500),
          sessionId := sm.sessionId, isInit := true, pushes := sm.pushes } := by
      simp [smUpdateState, fireIfDue, hto, Nat.not_le.mpr h2, hinit]
    rw [List.foldl_cons, hstep,
      ih _ t' rfl rfl (by simpa using h3)]
    simp [stateAfter, lastWriteTime]

/-- C2: for a nonempty burst of local writes, each strictly within the
500-unit debounce window of the previous one, starting from an idle
initialized manager holding a session id: exactly one push is eventually
sent for the whole burst, it carries the state after the last write (not
an intermediate one), and after each write the timer stood rescheduled to
500 past the latest write. -/
theorem c2_debounce_burst (s0 : List (String × JVal)) (sid : String)
    (w : Nat × List (String × JVal)) (ws : List (Nat × List (String × JVal)))
    (hb : burstGaps w.1 ws = true) :
    (runBurst { state := s0, syncTimeout := none, sessionId := some sid,
                isInit := true, pushes := [] } (w :: ws)).pushes =
      [stateAfter s0 (w :: ws)] ∧
    (runBurst { state := s0, syncTimeout := none, sessionId := some sid,
                isInit := true, pushes := [] } (w :: ws)).state =
      stateAfter s0 (w :: ws) ∧
    ((w :: ws).foldl (fun s x => smUpdateState s x.1 x.2)
        { state := s0, syncTimeout := none, sessionId := some sid,
          isInit := true, pushes := [] }).syncTimeout =
      some (lastWriteTime w.1 ws + 500) := by
  obtain ⟨t0, p0⟩ := w
  have hstep : smUpdateState
      { state := s0, syncTimeout := none, sessionId := some sid,
        isInit := true, pushes := [] } t0 p0 =
      { state := objMerge s0 p0, syncTimeout := some (t0 + 500),
        sessionId := some sid, isInit := true, pushes := [] } := by
    simp [smUpdateState, fireIfDue]
  have hfold := c2_burst_foldl ws
      { state := objMerge s0 p0, syncTimeout := some (t0 + 500),
        sessionId := some sid, isInit := true, pushes := [] } t0 rfl rfl hb
  refine ⟨?_, ?_, ?_⟩
  · rw [runBurst, List.foldl_cons, hstep, hfold]
    simp [smFlush, smFire, stateAfter, lastWriteTime]
  · rw [runBurst, List.foldl_cons, hstep, hfold]
    simp [smFlush, smFire, stateAfter, lastWriteTime]
  · rw [List.foldl_cons, hstep, hfold]

/-- C2 witness: a two-write burst 300 units apart pushes exactly the
final merged state once. -/
theorem c2_witness :
    burstGaps (0, [("a", JVal.num 1)]).1 [(300, [("a", JVal.num 2)])] = true ∧
    (runBurst { state := [], syncTimeout := none, sessionId := some uuidA,
                isInit := true, pushes := [] }
        [(0, [("a", JVal.num 1)]), (300, [("a", JVal.num 2)])]).pushes =
      [stateAfter [] [(0, [("a", JVal.num 1)]), (300, [("a", JVal.num 2)])]] ∧
    stateAfter [] [(0, [("a", JVal.num 1)]), (300, [("a", JVal.num 2)])] =
      [("a", JVal.num 2)] :=
  ⟨rfl,
   (c2_debounce_burst [] uuidA (0, [("a", JVal.num 1)]) [(300, [("a", JVal.num 2)])] rfl).1,
   rfl⟩

/-! ### C9: invariant toolkit -/

theorem storeInv_mono {t t' : Nat} {store : Store} (h : StoreInv t store) (ht : t ≤ t') :
    StoreInv t' store :=
  ⟨h.1, fun r hr => ⟨(h.2 r hr).1, le_trans (h.2 r hr).2 ht⟩⟩

theorem map_sessionId_updateSessionIn (sid : String) (f : UserSession → UserSession)
    (store : Store) (hf : ∀ r, (f r).sessionId = r.sessionId) :
    (updateSessionIn sid f store).map (·.sessionId) = store.map (·.sessionId) := by
  unfold updateSessionIn
  rw [List.map_map]
  exact List.map_congr_left fun r _ => by
    by_cases h : r.sessionId == sid <;> simp [Function.comp, h, hf]

theorem updateSessionIn_comp (sid : String) (f g : UserSession → UserSession) (store : Store)
    (hf : ∀ r, (f r).sessionId = r.sessionId) :
    updateSessionIn sid g (updateSessionIn sid f store) =
      updateSessionIn sid (fun r => g (f r)) store := by
  unfold updateSessionIn
  rw [List.map_map]
  exact List.map_congr_left fun r _ => by
    by_cases h : r.sessionId == sid <;> simp [Function.comp, h, hf]

theorem storeInv_updateSessionIn {t now : Nat} {store : Store} (sid : String)
    (f : UserSession → UserSession) (h : StoreInv t store) (ht : t ≤ now)
    (hT : Touches now f) :
    StoreInv now (updateSessionIn sid f store) := by
  constructor
  · rw [map_sessionId_updateSessionIn sid f store (fun r => (hT r).1)]
    exact h.1
  · intro r' hr'
    obtain ⟨r, hr, hEq⟩ := List.mem_map.mp hr'
    by_cases hc : r.sessionId == sid
    · rw [if_pos hc] at hEq
      subst hEq
      refine ⟨?_, ?_⟩
      · rw [(hT r).2.1, (hT r).2.2]
        exact le_trans (h.2 r hr).1 (le_trans (h.2 r hr).2 ht)
      · rw [(hT r).2.2]
    · rw [if_neg hc] at hEq
      subst hEq
      exact ⟨(h.2 r hr).1, le_trans (h.2 r hr).2 ht⟩

theorem storeInv_setSession {t now : Nat} {store : Store} (id : String)
    (h : StoreInv t store) (ht : t ≤ now) :
    StoreInv now (setSession (newUserSession now id) store) := by
  unfold setSession
  by_cases hc : store.any (fun r => r.sessionId == (newUserSession now id).sessionId) = true
  · rw [if_pos hc]
    constructor
    · rw [List.map_map]
      have heq : store.map ((·.sessionId) ∘ (fun r =>
          if r.sessionId == (newUserSession now id).sessionId then newUserSession now id else r))
          = store.map (·.sessionId) :=
        List.map_congr_left fun r _ => by
          by_cases hrc : r.sessionId == (newUserSession now id).sessionId
          · simp only [Function.comp, if_pos hrc]
            exact (eq_of_beq hrc).symm
          · simp [Function.comp, hrc]
      rw [heq]
      exact h.1
    · intro r' hr'
      obtain ⟨r, hr, hEq⟩ := List.mem_map.mp hr'
      by_cases hrc : r.sessionId == (newUserSession now id).sessionId
      · rw [if_pos hrc] at hEq
        subst hEq
        exact ⟨le_refl now, le_refl now⟩
      · rw [if_neg hrc] at hEq
        subst hEq
        exact ⟨(h.2 r hr).1, le_trans (h.2 r hr).2 ht⟩
  · rw [if_neg hc]
    have hc' : store.any (fun r => r.sessionId == (newUserSession now id).sessionId) = false := by
      simpa using hc
    rw [List.any_eq_false] at hc'
    constructor
    · rw [List.map_append, List.nodup_append]
      refine ⟨h.1, List.nodup_singleton _, ?_⟩
      intro x hx hx2
      obtain ⟨r, hr, hrid⟩ := List.mem_map.mp hx
      have hx2' : x = (newUserSession now id).sessionId := by simpa using hx2
      exact hc' r hr (by rw [hrid, hx2']; exact beq_self_eq_true _)
    · intro r' hr'
      rcases List.mem_append.mp hr' with hin | hin
      · exact ⟨(h.2 r' hin).1, le_trans (h.2 r' hin).2 ht⟩
      · have : r' = newUserSession now id := by simpa using hin
        subst this
        exact ⟨le_refl now, le_refl now⟩

theorem storeInv_sweep {t now maxAge : Nat} {store : Store} (h : StoreInv t store)
    (ht : t ≤ now) :
    StoreInv now (sweepExpired now maxAge store) := by
  constructor
  · exact List.Nodup.sublist (List.Sublist.map _ (List.filter_sublist store)) h.1
  · intro r hr
    have hin := (List.mem_filter.mp hr).1
    exact ⟨(h.2 r hin).1, le_trans (h.2 r hin).2 ht⟩

theorem getHandler_store_cases (now : Nat) (sid : String) (store : Store) :
    (getHandler now sid store).store = store ∨
    ∃ f, Touches now f ∧ (getHandler now sid store).store = updateSessionIn sid f store := by
  unfold getHandler
  by_cases hs : validateSessionId sid
  · cases hl : lookupSession sid store with
    | none => left; simp [hs, hl]
    | some sess =>
      right
      exact ⟨fun r => { r with lastActivity := now },
        fun r => ⟨rfl, rfl, rfl⟩, by simp [hs, hl]⟩
  · left
    simp [hs]

theorem resetHandler_store_cases (now : Nat) (sid : String) (store : Store) :
    (resetHandler now sid store).store = store ∨
    ∃ f, Touches now f ∧ (resetHandler now sid store).store = updateSessionIn sid f store := by
  unfold resetHandler
  by_cases hs : validateSessionId sid
  · cases hl : lookupSession sid store with
    | none => left; simp [hs, hl]
    | some sess =>
      right
      exact ⟨fun r => r.resetSession now, fun r => ⟨rfl, rfl, rfl⟩, by simp [hs, hl]⟩
  · left
    simp [hs]

theorem putWorkspacePhase_store_cases (now : Nat) (sid : String) (w : Option JVal)
    (sess : UserSession) (store : Store) :
    (putWorkspacePhase now sid w sess store).store = store ∨
    ∃ f, Touches now f ∧
      (putWorkspacePhase now sid w sess store).store = updateSessionIn sid f store := by
  unfold putWorkspacePhase
  cases w with
  | none => left; rfl
  | some wv =>
    by_cases hv : validateWorkspaceData wv
    · right
      exact ⟨fun r => r.updateWorkspaceData wv now, fun r => ⟨rfl, rfl, rfl⟩, by simp [hv]⟩
    · left
      simp [hv]

theorem putStateHandler_store_cases (now : Nat) (sid : String) (u w : Option JVal)
    (store : Store) :
    (putStateHandler now sid u w store).store = store ∨
    ∃ f, Touches now f ∧
      (putStateHandler now sid u w store).store = updateSessionIn sid f store := by
  unfold putStateHandler
  by_cases hs : validateSessionId sid
  · cases hl : lookupSession sid store with
    | none => left; simp [hs, hl]
    | some sess =>
      cases u with
      | none =>
        have := putWorkspacePhase_store_cases now sid w sess store
        simpa [hs] using this
      | some uv =>
        by_cases hu : validateUiState uv
        · rcases putWorkspacePhase_store_cases now sid w (sess.updateUiState uv now)
            (updateSessionIn sid (fun r => r.updateUiState uv now) store) with
              hcase | ⟨g, hg, hcase⟩
          · right
            refine ⟨fun r => r.updateUiState uv now, fun r => ⟨rfl, rfl, rfl⟩, ?_⟩
            simp only [hs, hu, Bool.not_true, Bool.false_eq_true, if_false]
            exact hcase
          · right
            refine ⟨fun r => g (r.updateUiState uv now),
              fun r => ⟨(hg _).1, (hg _).2.1, (hg _).2.2⟩, ?_⟩
            simp only [hs, hu, Bool.not_true, Bool.false_eq_true, if_false]
            rw [hcase, updateSessionIn_comp sid (fun r => r.updateUiState uv now) g store
              (fun r => rfl)]
        · left
          simp [hs, hu]
  · left
    simp [hs]

theorem uploadEndpoint_store_cases (now : Nat) (sid : String) (req : UploadReq)
    (store : Store) :
    (uploadEndpoint now sid req store).store = store ∨
    ∃ f, Touches now f ∧
      (uploadEndpoint now sid req store).store = updateSessionIn sid f store := by
  unfold uploadEndpoint
  cases hm : multerSingleFile req with
  | errFileSize => left; rfl
  | errFileType => left; rfl
  | pass reqFile =>
    unfold uploadHandler
    by_cases hs : validateSessionId sid
    · cases hl : lookupSession sid store with
      | none => left; simp [hs]
      | some sess =>
        cases reqFile with
        | none => left; simp [hs]
        | some quad =>
          obtain ⟨n, m, sz, content⟩ := quad
          cases hup : jget sess.workspaceData "uploads" with
          | none => left; simp [hs, hup]
          | some v =>
            cases v with
            | arr xs =>
              right
              refine ⟨fun r =>
                  { r with
                    workspaceData := pushUpload r.workspaceData (mkUploadInfo n m sz content now)
                    lastActivity := now },
                fun r => ⟨rfl, rfl, rfl⟩, ?_⟩
              simp [hs, hup]
            | null => left; simp [hs, hup]
            | str s => left; simp [hs, hup]
            | bool b => left; simp [hs, hup]
            | num k => left; simp [hs, hup]
            | obj fs => left; simp [hs, hup]
    · have hs' : validateSessionId sid = false := by simpa using hs
      left
      simp [hs']

theorem storeInv_applyOp (op : Op) {t : Nat} {store : Store}
    (h : StoreInv t store) (ht : t ≤ op.time) :
    StoreInv op.time (applyOp store op) := by
  cases op with
  | create now id => exact storeInv_setSession id h ht
  | sweep now maxAge => exact storeInv_sweep h ht
  | fetch now sid =>
    rcases getHandler_store_cases now sid store with hc | ⟨f, hT, hc⟩
    · rw [show applyOp store (.fetch now sid) = (getHandler now sid store).store from rfl, hc]
      exact storeInv_mono h ht
    · rw [show applyOp store (.fetch now sid) = (getHandler now sid store).store from rfl, hc]
      exact storeInv_updateSessionIn sid f h ht hT
  | put now sid u w =>
    rcases putStateHandler_store_cases now sid u w store with hc | ⟨f, hT, hc⟩
    · rw [show applyOp store (.put now sid u w) = (putStateHandler now sid u w store).store
        from rfl, hc]
      exact storeInv_mono h ht
    · rw [show applyOp store (.put now sid u w) = (putStateHandler now sid u w store).store
        from rfl, hc]
      exact storeInv_updateSessionIn sid f h ht hT
  | reset now sid =>
    rcases resetHandler_store_cases now sid store with hc | ⟨f, hT, hc⟩
    · rw [show applyOp store (.reset now sid) = (resetHandler now sid store).store from rfl, hc]
      exact storeInv_mono h ht
    · rw [show applyOp store (.reset now sid) = (resetHandler now sid store).store from rfl, hc]
      exact storeInv_updateSessionIn sid f h ht hT
  | upload now sid req =>
    rcases uploadEndpoint_store_cases now sid req store with hc | ⟨f, hT, hc⟩
    · rw [show applyOp store (.upload now sid req) = (uploadEndpoint now sid req store).store
        from rfl, hc]
      exact storeInv_mono h ht
    · rw [show applyOp store (.upload now sid req) = (uploadEndpoint now sid req store).store
        from rfl, hc]
      exact storeInv_updateSessionIn sid f h ht hT

theorem identity_updateSessionIn {sid' sid : String} {f : UserSession → UserSession}
    {store : Store} {r r' : UserSession}
    (hfid : ∀ x, (f x).sessionId = x.sessionId) (hfca : ∀ x, (f x).createdAt = x.createdAt)
    (h : lookupSession sid' store = some r)
    (h' : lookupSession sid' (updateSessionIn sid f store) = some r') :
    r'.sessionId = r.sessionId ∧ r'.createdAt = r.createdAt := by
  rw [lookupSession_updateSessionIn sid' sid f store hfid, h] at h'
  simp only [Option.map_some', Option.some.injEq] at h'
  by_cases hc : r.sessionId == sid
  · rw [if_pos hc] at h'
    rw [← h']
    exact ⟨hfid r, hfca r⟩
  · rw [if_neg hc] at h'
    rw [← h']
    exact ⟨rfl, rfl⟩

theorem identity_append {sid : String} {store : Store} {sess r r' : UserSession}
    (h : lookupSession sid store = some r)
    (h' : lookupSession sid (store ++ [sess]) = some r') : r' = r := by
  unfold lookupSession at h h'
  rw [List.find?_append, h] at h'
  simpa using h'.symm

theorem identity_filter {sid : String} {store : Store} {p : UserSession → Bool}
    {r r' : UserSession}
    (hnod : (store.map (·.sessionId)).Nodup)
    (h : lookupSession sid store = some r)
    (h' : lookupSession sid (store.filter p) = some r') : r' = r := by
  have hr : r ∈ store := mem_of_lookup h
  have hrid : r.sessionId = sid := sessionId_of_lookup h
  have hr' : r' ∈ store := (List.mem_filter.mp (mem_of_lookup h')).1
  have hrid' : r'.sessionId = sid := sessionId_of_lookup h'
  exact List.inj_on_of_nodup_map hnod hr' hr (by rw [hrid', hrid])

theorem identity_applyOp (op : Op) {t : Nat} {store : Store}
    (hInv : StoreInv t store)
    (hfresh : (match op with
               | .create _ id => (lookupSession id store).isNone
               | _ => true) = true) :
    ∀ sid r r', lookupSession sid store = some r →
      lookupSession sid (applyOp store op) = some r' →
      r'.sessionId = r.sessionId ∧ r'.createdAt = r.createdAt := by
  intro sid r r' h h'
  cases op with
  | create now id =>
    have hfr : lookupSession id store = none := by
      simpa [Option.isNone_iff_eq_none] using hfresh
    have hany : store.any (fun x => x.sessionId == (newUserSession now id).sessionId)
        = false := by
      rw [List.any_eq_false]
      intro x hx hbx
      have hne : lookupSession id store ≠ none := by
        unfold lookupSession
        intro hn
        rw [List.find?_eq_none] at hn
        exact hn x hx (by simpa [newUserSession] using hbx)
      exact hne hfr
    have happ : applyOp store (.create now id) = store ++ [newUserSession now id] := by
      simp [applyOp, initHandler, setSession, hany]
    rw [happ] at h'
    rw [identity_append h h']
    exact ⟨rfl, rfl⟩
  | sweep now maxAge =>
    rw [identity_filter hInv.1 h h']
    exact ⟨rfl, rfl⟩
  | fetch now sid2 =>
    rcases getHandler_store_cases now sid2 store with hc | ⟨f, hT, hc⟩
    · rw [show applyOp store (.fetch now sid2) = (getHandler now sid2 store).store from rfl,
        hc, h] at h'
      rw [← Option.some_inj.mp h']
      exact ⟨rfl, rfl⟩
    · rw [show applyOp store (.fetch now sid2) = (getHandler now sid2 store).store from rfl,
        hc] at h'
      exact identity_updateSessionIn (fun x => (hT x).1) (fun x => (hT x).2.1) h h'
  | put now sid2 u w =>
    rcases putStateHandler_store_cases now sid2 u w store with hc | ⟨f, hT, hc⟩
    · rw [show applyOp store (.put now sid2 u w) = (putStateHandler now sid2 u w store).store
        from rfl, hc, h] at h'
      rw [← Option.some_inj.mp h']
      exact ⟨rfl, rfl⟩
    · rw [show applyOp store (.put now sid2 u w) = (putStateHandler now sid2 u w store).store
        from rfl, hc] at h'
      exact identity_updateSessionIn (fun x => (hT x).1) (fun x => (hT x).2.1) h h'
  | reset now sid2 =>
    rcases resetHandler_store_cases now sid2 store with hc | ⟨f, hT, hc⟩
    · rw [show applyOp store (.reset now sid2) = (resetHandler now sid2 store).store
        from rfl, hc, h] at h'
      rw [← Option.some_inj.mp h']
      exact ⟨rfl, rfl⟩
    · rw [show applyOp store (.reset now sid2) = (resetHandler now sid2 store).store
        from rfl, hc] at h'
      exact identity_updateSessionIn (fun x => (hT x).1) (fun x => (hT x).2.1) h h'
  | upload now sid2 req =>
    rcases uploadEndpoint_store_cases now sid2 req store with hc | ⟨f, hT, hc⟩
    · rw [show applyOp store (.upload now sid2 req) = (uploadEndpoint now sid2 req store).store
        from rfl, hc, h] at h'
      rw [← Option.some_inj.mp h']
      exact ⟨rfl, rfl⟩
    · rw [show applyOp store (.upload now sid2 req) = (uploadEndpoint now sid2 req store).store
        from rfl, hc] at h'
      exact identity_updateSessionIn (fun x => (hT x).1) (fun x => (hT x).2.1) h h'

theorem c9_run_invariant (ops : List Op) :
    ∀ (store : Store) (t : Nat), StoreInv t store →
    timesMono t ops = true → freshCreates store ops = true →
    StoreInv (endTime t ops) (runOps store ops) ∧ PreservesIdentity store ops := by
  induction ops with
  | nil =>
    intro store t h _ _
    exact ⟨h, trivial⟩
  | cons op ops ih =>
    intro store t h hmono hfresh
    simp only [timesMono, Bool.and_eq_true, decide_eq_true_iff] at hmono
    obtain ⟨ht, hmono'⟩ := hmono
    simp only [freshCreates, Bool.and_eq_true] at hfresh
    obtain ⟨hf1, hfresh'⟩ := hfresh
    have hInv' := storeInv_applyOp op h ht
    have hrest := ih (applyOp store op) op.time hInv' hmono' hfresh'
    exact ⟨hrest.1, identity_applyOp op h hf1, hrest.2⟩

/-! ### C9: the claim -/

/-- C9: starting from the empty store, after any sequence of create, get,
updateState, reset, upload and sweep operations (run at nondecreasing
instants, with fresh uuids on creates), every stored record satisfies
`lastActivity ≥ createdAt`, session ids are pairwise distinct across the
store, and no step of the run changed the `sessionId` or `createdAt` of a
record present both before and after that step. -/
theorem c9_store_invariant (ops : List Op) (t0 : Nat)
    (hmono : timesMono t0 ops = true) (hfresh : freshCreates [] ops = true) :
    (((runOps [] ops).map (·.sessionId)).Nodup) ∧
    (∀ r ∈ runOps [] ops, r.createdAt ≤ r.lastActivity) ∧
    PreservesIdentity [] ops := by
  have h0 : StoreInv t0 ([] : Store) := ⟨List.nodup_nil, by intro r hr; cases hr⟩
  have hrun := c9_run_invariant ops [] t0 h0 hmono hfresh
  exact ⟨hrun.1.1, fun r hr => (hrun.1.2 r hr).1, hrun.2⟩

/-- C9 witness: the concrete trace `opsW` exercising every operation. -/
theorem c9_witness :
    timesMono 0 opsW = true ∧ freshCreates [] opsW = true ∧
    ((((runOps [] opsW).map (·.sessionId)).Nodup) ∧
     (∀ r ∈ runOps [] opsW, r.createdAt ≤ r.lastActivity)) :=
  ⟨rfl, rfl,
   (c9_store_invariant opsW 0 rfl rfl).1,
   (c9_store_invariant opsW 0 rfl rfl).2.1⟩

end BugBash
